import Mathlib

/-!
# Frame update step of the viewer (`src/script.js`)

A shallow embedding of the per-frame `animate` callback, the key handlers, the
loader callbacks as far as they publish what the tick reads, and the debug
lamp toggle of `src/script.js`.

Numbers are taken in an ordered field `K` (exact arithmetic, `ℚ` or `ℝ`), and
`Math.sqrt` is a parameter `sqrt : K → K` of the tick, so that every definition
stays executable; statements that depend on normalisation assume that this
parameter is an exact square root (`ExactSqrt`).

The vector helpers follow the documented behaviour of the `THREE.Vector3`
methods the script calls (`add`, `sub`, `multiplyScalar`, `lengthSq`,
`normalize`, `crossVectors`, `lerp`) and of `THREE.MathUtils.lerp`.
`THREE.MathUtils` has no `lerpAngle`: the two lines of `animate` that call it
throw a `TypeError`, which ends the call; `animate` returns the variables as
the call leaves them together with a flag for the throw.
-/

namespace Viewer

/-! ## Vectors -/

/-- Three-component vector, as `THREE.Vector3`. -/
@[ext]
structure Vec3 (K : Type) where
  x : K
  y : K
  z : K
deriving DecidableEq, Repr

namespace Vec3

variable {K : Type} [LinearOrderedField K]

/-- The vector `new THREE.Vector3()`. -/
def zero : Vec3 K := ⟨0, 0, 0⟩

/-- The method `Vector3.add`. -/
def add (a b : Vec3 K) : Vec3 K := ⟨a.x + b.x, a.y + b.y, a.z + b.z⟩

/-- The method `Vector3.sub`. -/
def sub (a b : Vec3 K) : Vec3 K := ⟨a.x - b.x, a.y - b.y, a.z - b.z⟩

/-- The method `Vector3.multiplyScalar`. -/
def multiplyScalar (a : Vec3 K) (k : K) : Vec3 K := ⟨a.x * k, a.y * k, a.z * k⟩

/-- The method `Vector3.lengthSq`. -/
def lengthSq (a : Vec3 K) : K := a.x * a.x + a.y * a.y + a.z * a.z

/-- The method `Vector3.length`, over the square root in use. -/
def length (sqrt : K → K) (a : Vec3 K) : K := sqrt (lengthSq a)

/-- The method `Vector3.normalize`: `divideScalar(this.length() || 1)`, where
`divideScalar(s)` is `multiplyScalar(1 / s)`. -/
def normalize (sqrt : K → K) (a : Vec3 K) : Vec3 K :=
  multiplyScalar a (1 / (if length sqrt a = 0 then 1 else length sqrt a))

/-- The method `Vector3.crossVectors`. -/
def crossVectors (a b : Vec3 K) : Vec3 K :=
  ⟨a.y * b.z - a.z * b.y, a.z * b.x - a.x * b.z, a.x * b.y - a.y * b.x⟩

/-- The method `Vector3.lerp`: each component moves by `alpha` of the gap. -/
def lerp (a v : Vec3 K) (alpha : K) : Vec3 K :=
  ⟨a.x + (v.x - a.x) * alpha, a.y + (v.y - a.y) * alpha, a.z + (v.z - a.z) * alpha⟩

/-- The statement `v.y = 0` on a vector. -/
def flatten (a : Vec3 K) : Vec3 K := ⟨a.x, 0, a.z⟩

end Vec3

/-- The function `THREE.MathUtils.lerp`: `(1 - t) * x + t * y`. -/
def lerp {K : Type} [LinearOrderedField K] (x y t : K) : K := (1 - t) * x + t * y

/-- An exact square root on the non-negative part of the field. -/
def ExactSqrt {K : Type} [LinearOrderedField K] (sqrt : K → K) : Prop :=
  ∀ x, 0 ≤ x → 0 ≤ sqrt x ∧ sqrt x * sqrt x = x

/-! ## State read and written by the script -/

/-- The object `keys`: the four held-key flags. -/
structure Keys where
  w : Bool
  a : Bool
  s : Bool
  d : Bool
deriving DecidableEq, Repr

/-- The variable `mode`: `"FPS"` or `"TPS"`. -/
inductive Mode where
  | FPS
  | TPS
deriving DecidableEq, Repr

/-- The lamp mesh `Plane001_3` as far as the tick touches it: the material kind
and the three shader uniforms. -/
structure LampMesh (K : Type) where
  isShaderMaterial : Bool
  emissiveColor : Vec3 K
  emissiveIntensity : K
  baseColor : Nat
deriving DecidableEq, Repr

/-- The lamp light `Point`: its intensity and `userData.originalIntensity`. -/
structure LampLight (K : Type) where
  intensity : K
  originalIntensity : K
deriving DecidableEq, Repr

/-- An animation action, as far as the script reads it: the index of its clip
in `gltf.animations` (`mixer.clipAction` returns the same action for the same
clip) and what `isRunning()` returns. -/
structure Action where
  clipIndex : Nat
  isRunning : Bool
deriving DecidableEq, Repr

/-- The two clips of the character. -/
inductive Clip where
  | idle
  | walk
deriving DecidableEq, Repr

/-- A call made on an animation action, with its duration where it has one. -/
inductive AnimCmd (K : Type) where
  | fadeOut (c : Clip) (duration : K)
  | reset (c : Clip)
  | fadeIn (c : Clip) (duration : K)
  | play (c : Clip)
deriving DecidableEq, Repr

/-- The module-level variables of the script that the tick and the handlers
read or write. The player yaw is left out: the only lines that assign it are
the two `lerpAngle` lines, which throw before the assignment. -/
structure State (K : Type) where
  mode : Mode
  keys : Keys
  lampState : Nat
  lampAnim : K
  lampMesh : Option (LampMesh K)
  lampLight : Option (LampLight K)
  playerPosition : Vec3 K
  cameraPosition : Vec3 K
  orbitTarget : Vec3 K
  mixerTime : Option K
  idleAction : Option Action
  walkAction : Option Action

/-- What one tick reads from the rendering library: the square root, the look
direction of the camera (`(0,0,-1)` turned by the camera quaternion in
first-person mode, `camera.getWorldDirection` in third-person mode), the
player's facing `(0,0,-1)` turned by `player.quaternion`, the effect of
`tpsControls.update()` on the orbit target and the camera position, and what
`mixer.update(dt)` leaves of the running flag of the action of a clip (a
fade-out that completes disables the action). -/
structure Env (K : Type) where
  sqrt : K → K
  look : Vec3 K
  playerForward : Vec3 K
  orbitUpdate : Vec3 K × Vec3 K → Vec3 K × Vec3 K
  mixerUpdate : K → Nat → Bool → Bool

/-- The outcome of one call of `animate`: the variables as the call leaves
them, the animation calls it issued, and whether it ended in an uncaught
exception (the writes made before the throw stay). -/
structure TickResult (K : Type) where
  state : State K
  cmds : List (AnimCmd K)
  threw : Bool

section Tick

variable {K : Type} [LinearOrderedField K]

/-- The constant `walkSpeed`. -/
def walkSpeed : K := 5

/-- The vector `new THREE.Vector3(0, 1, 0)`. -/
def up : Vec3 K := ⟨0, 1, 0⟩

/-- Lamp light setup in the loader callback: the intensity found in the model
is stored as `userData.originalIntensity` and the light starts at 0. -/
def captureLampLight (loaded : K) : LampLight K :=
  { intensity := 0, originalIntensity := loaded }

/-- The expression `lampState ? 1 : 0`. -/
def lampTarget (lampState : Nat) : K := if lampState ≠ 0 then 1 else 0

/-- The lamp smoothing line: `lampAnim = lerp(lampAnim, target, 0.15)`. -/
def lampStep (lampState : Nat) (lampAnim : K) : K :=
  lerp lampAnim (lampTarget lampState) (15 / 100)

/-- The block guarded by `lampMesh && lampMesh.material.isShaderMaterial`. -/
def updateLampMesh (lampAnim : K) : Option (LampMesh K) → Option (LampMesh K)
  | none => none
  | some m =>
    if m.isShaderMaterial then
      some { m with
        emissiveColor := ⟨lampAnim * 1, lampAnim * (9 / 10), lampAnim * (3 / 10)⟩
        emissiveIntensity := lampAnim * 2
        baseColor := 0xCCCCCC }
    else some m

/-- The block guarded by `lampLight`:
`intensity = lampAnim * (userData.originalIntensity || 1.0)`. -/
def updateLampLight (lampAnim : K) : Option (LampLight K) → Option (LampLight K)
  | none => none
  | some l =>
    some { l with
      intensity := lampAnim * (if l.originalIntensity = 0 then 1 else l.originalIntensity) }

/-- The function `fpsForwardVector`: the look direction with `y = 0`,
normalised. -/
def fpsForwardVector (sqrt : K → K) (look : Vec3 K) : Vec3 K :=
  Vec3.normalize sqrt (Vec3.flatten look)

/-- Third-person `cameraDirection`: `camera.getWorldDirection`, then `y = 0`,
then `normalize()`. -/
def cameraDirection (sqrt : K → K) (look : Vec3 K) : Vec3 K :=
  Vec3.normalize sqrt (Vec3.flatten look)

/-- First-person `right`: `crossVectors(f, up).normalize()`. -/
def fpsRight (sqrt : K → K) (f : Vec3 K) : Vec3 K :=
  Vec3.normalize sqrt (Vec3.crossVectors f up)

/-- Third-person `cameraRight`: `crossVectors(up, cameraDirection).normalize()`. -/
def tpsRight (sqrt : K → K) (f : Vec3 K) : Vec3 K :=
  Vec3.normalize sqrt (Vec3.crossVectors up f)

/-- First-person accumulation of `move` over the held keys. -/
def fpsMove (sqrt : K → K) (look : Vec3 K) (keys : Keys) : Vec3 K :=
  let f := fpsForwardVector sqrt look
  let right := fpsRight sqrt f
  let move := Vec3.zero
  let move := if keys.w then Vec3.add move f else move
  let move := if keys.s then Vec3.sub move f else move
  let move := if keys.a then Vec3.sub move right else move
  let move := if keys.d then Vec3.add move right else move
  move

/-- Third-person accumulation of `move` over the held keys. -/
def tpsMove (sqrt : K → K) (look : Vec3 K) (keys : Keys) : Vec3 K :=
  let cameraDirection := cameraDirection sqrt look
  let cameraRight := tpsRight sqrt cameraDirection
  let move := Vec3.zero
  let move := if keys.w then Vec3.add move cameraDirection else move
  let move := if keys.s then Vec3.sub move cameraDirection else move
  let move := if keys.a then Vec3.add move cameraRight else move
  let move := if keys.d then Vec3.sub move cameraRight else move
  move

/-- The vector `move` of a tick, by mode. -/
def moveVector (sqrt : K → K) (look : Vec3 K) (mode : Mode) (keys : Keys) : Vec3 K :=
  match mode with
  | Mode.FPS => fpsMove sqrt look keys
  | Mode.TPS => tpsMove sqrt look keys

/-- The calls `a.fadeOut(0.2); b.reset().fadeIn(0.2).play()`. -/
def crossFade (a b : Clip) : List (AnimCmd K) :=
  [AnimCmd.fadeOut a (2 / 10), AnimCmd.reset b, AnimCmd.fadeIn b (2 / 10), AnimCmd.play b]

/-- Animation calls of the branch where `move` is zero. -/
def idleCmds (idleAction walkAction : Option Action) : List (AnimCmd K) :=
  match walkAction, idleAction with
  | some _, some idle => if !idle.isRunning then crossFade Clip.walk Clip.idle else []
  | _, _ => []

/-- The running flag after `mixer.update(dt)`. -/
def mixerAction (env : Env K) (dt : K) (a : Action) : Action :=
  { a with isRunning := env.mixerUpdate dt a.clipIndex a.isRunning }

/-- The line `if (mixer) mixer.update(dt)` as seen from an action variable. -/
def mixerStep (env : Env K) (dt : K) (mixerTime : Option K) (a : Option Action) :
    Option Action :=
  match mixerTime with
  | some _ => a.map (mixerAction env dt)
  | none => a

/-- The chain `reset().fadeIn(0.2).play()` on the action of clip `c`, as seen
from an action variable: the action of that clip is running afterwards. -/
def started (c : Nat) (a : Action) : Action :=
  if a.clipIndex = c then { a with isRunning := true } else a

/-- The action variables after the branch where `move` is zero. -/
def idleStarted (s : State K) : State K :=
  match s.walkAction, s.idleAction with
  | some walk, some idle =>
    if !idle.isRunning then
      { s with
        idleAction := some (started idle.clipIndex idle)
        walkAction := some (started idle.clipIndex walk) }
    else s
  | _, _ => s

/-- The function `animate`, without the render call. `THREE.MathUtils` has no
member `lerpAngle`, so the yaw lines of the two branches `move.lengthSq() > 0`
(`player.rotation.y = THREE.MathUtils.lerpAngle(...)`) throw a `TypeError`: the
call ends there, after the position (and, in first-person mode, the camera)
has been written and before the walk cross-fade and the third-person camera
follow. -/
def animate (env : Env K) (dt : K) (s : State K) : TickResult K :=
  let idleAction := mixerStep env dt s.mixerTime s.idleAction
  let walkAction := mixerStep env dt s.mixerTime s.walkAction
  let mixerTime := s.mixerTime.map (fun t => t + dt)
  let lampAnim := lampStep s.lampState s.lampAnim
  let lampMesh := updateLampMesh lampAnim s.lampMesh
  let lampLight := updateLampLight lampAnim s.lampLight
  let s := { s with
    mixerTime := mixerTime, idleAction := idleAction, walkAction := walkAction,
    lampAnim := lampAnim, lampMesh := lampMesh, lampLight := lampLight }
  match s.mode with
  | Mode.FPS =>
    let move := fpsMove env.sqrt env.look s.keys
    if Vec3.lengthSq move > 0 then
      let move := Vec3.normalize env.sqrt move
      let position := Vec3.add s.playerPosition (Vec3.multiplyScalar move (walkSpeed * dt))
      let head : Vec3 K := ⟨position.x, position.y + 16 / 10, position.z⟩
      { state := { s with playerPosition := position, cameraPosition := head }
        cmds := []
        threw := true }
    else
      { state := idleStarted s
        cmds := idleCmds s.idleAction s.walkAction
        threw := false }
  | Mode.TPS =>
    let move := tpsMove env.sqrt env.look s.keys
    if Vec3.lengthSq move > 0 then
      let move := Vec3.normalize env.sqrt move
      let position := Vec3.add s.playerPosition (Vec3.multiplyScalar move (walkSpeed * dt))
      { state := { s with playerPosition := position }
        cmds := []
        threw := true }
    else
      let cmds := idleCmds s.idleAction s.walkAction
      let s := idleStarted s
      let targetPosition := Vec3.add s.playerPosition ⟨0, 15 / 10, 0⟩
      let target := Vec3.lerp s.orbitTarget targetPosition (2 / 10)
      let playerForward := Vec3.normalize env.sqrt (Vec3.flatten env.playerForward)
      let desiredPosition :=
        Vec3.add (Vec3.sub s.playerPosition (Vec3.multiplyScalar playerForward 3))
          ⟨0, 15 / 10, 0⟩
      let camera := Vec3.lerp s.cameraPosition desiredPosition (15 / 100)
      let orbit := env.orbitUpdate (target, camera)
      { state := { s with orbitTarget := orbit.1, cameraPosition := orbit.2 }
        cmds := cmds
        threw := false }

end Tick

/-! ## Input handlers -/

/-- The `event.code` values the handlers look at; any other key is `other`. -/
inductive KeyCode where
  | KeyW
  | KeyA
  | KeyS
  | KeyD
  | KeyL
  | other
deriving DecidableEq, Repr

/-- The assignment `lampState = lampState ? 0 : 1`. -/
def toggle (lampState : Nat) : Nat := if lampState ≠ 0 then 0 else 1

/-- The `keydown` listener, without the status line and the log. -/
def keydown {K : Type} (code : KeyCode) (s : State K) : State K :=
  let keys := s.keys
  let keys := if code = KeyCode.KeyW then { keys with w := true } else keys
  let keys := if code = KeyCode.KeyA then { keys with a := true } else keys
  let keys := if code = KeyCode.KeyS then { keys with s := true } else keys
  let keys := if code = KeyCode.KeyD then { keys with d := true } else keys
  let s := { s with keys := keys }
  if code = KeyCode.KeyL then { s with lampState := toggle s.lampState } else s

/-- The `keyup` listener. -/
def keyup {K : Type} (code : KeyCode) (s : State K) : State K :=
  let keys := s.keys
  let keys := if code = KeyCode.KeyW then { keys with w := false } else keys
  let keys := if code = KeyCode.KeyA then { keys with a := false } else keys
  let keys := if code = KeyCode.KeyS then { keys with s := false } else keys
  let keys := if code = KeyCode.KeyD then { keys with d := false } else keys
  { s with keys := keys }

/-- The function `setMode`, without the status line and the `enabled` flag of
the orbit controls. -/
def setMode {K : Type} (m : Mode) (s : State K) : State K :=
  { s with mode := m }

/-- The state with the held keys replaced, as a run of `keydown` and `keyup`
events leaves it. -/
def withKeys {K : Type} (keys : Keys) (s : State K) : State K :=
  { s with keys := keys }

/-- The state with the lamp references replaced: what the model loader
publishes (`some`) or has not published or found (`none`). -/
def withLamp {K : Type} (mesh : Option (LampMesh K)) (light : Option (LampLight K))
    (s : State K) : State K :=
  { s with lampMesh := mesh, lampLight := light }

/-- The choice of the walk clip in the character loader: the first clip whose
name matches `/walk|run|locomotion/i` (`named`, its index), else
`animations[1]` when there is more than one clip. -/
def walkClip (count : Nat) (named : Option Nat) : Option Nat :=
  match named with
  | some i => some i
  | none => if count > 1 then some 1 else none

/-- The character loader callback for a file with `count` animations. With at
least one, a mixer is created, `idleAction` is the action of `animations[0]`
and is played, and `walkAction` is the action of the walk clip when there is
one: the same action as `idleAction`, so running, when that clip is
`animations[0]`, and a new action, not running, otherwise. -/
def characterLoaded {K : Type} [LinearOrderedField K] (count : Nat) (named : Option Nat)
    (s : State K) : State K :=
  if count = 0 then s
  else
    { s with
      mixerTime := some 0
      idleAction := some ⟨0, true⟩
      walkAction := (walkClip count named).map (fun i => ⟨i, decide (i = 0)⟩) }

/-- The debug function `window.__TOGGLE_LAMP`, without the log. -/
def TOGGLE_LAMP {K : Type} (s : State K) : State K :=
  { s with lampState := toggle s.lampState }

/-! ## Concrete runs -/

/-- The values the script gives its variables before the first tick: mode
`"TPS"`, no key held, lamp off, nothing published by the loaders, player at
`(0, 0, 5)`, camera at `(0, 2, 3)`, orbit target copied from the player. -/
def initialState {K : Type} [LinearOrderedField K] : State K :=
  { mode := Mode.TPS
    keys := { w := false, a := false, s := false, d := false }
    lampState := 0
    lampAnim := 0
    lampMesh := none
    lampLight := none
    playerPosition := ⟨0, 0, 5⟩
    cameraPosition := ⟨0, 2, 3⟩
    orbitTarget := ⟨0, 0, 5⟩
    mixerTime := none
    idleAction := none
    walkAction := none }

/-- An environment for concrete runs: camera and player both facing `look`,
orbit controls at rest, no fade completing during the tick. -/
def facing {K : Type} (sqrt : K → K) (look : Vec3 K) : Env K :=
  { sqrt := sqrt
    look := look
    playerForward := look
    orbitUpdate := id
    mixerUpdate := fun _ _ running => running }

/-- A rational environment: facing `-Z`, with `Rat.sqrt` as square root (exact
on squares of rationals). -/
def envMinusZ : Env ℚ := facing Rat.sqrt ⟨0, 0, -1⟩

/-- Only W held. -/
def keysW : Keys := ⟨true, false, false, false⟩

/-- Only A held. -/
def keysA : Keys := ⟨false, true, false, false⟩

/-- W and D held. -/
def keysWD : Keys := ⟨true, false, false, true⟩

/-- Lamp requested on, lamp light loaded from a model whose `Point` light has
intensity 0. -/
def stateDarkLight : State ℚ :=
  { (initialState : State ℚ) with lampState := 1, lampLight := some (captureLampLight 0) }

/-- Lamp requested on, lamp light loaded from a model whose `Point` light has
intensity 2. -/
def stateBrightLight : State ℚ :=
  { (initialState : State ℚ) with lampState := 1, lampLight := some (captureLampLight 2) }

/-- Third-person mode with only A held, from the initial state. -/
def stateStrafeA : State ℚ :=
  { (initialState : State ℚ) with keys := keysA }

/-- First-person mode entered from the initial state (the `fpsBtn` click calls
`setMode("FPS")`), no key held: the camera is still at `(0, 2, 3)`. -/
def stateEnterFps : State ℚ := setMode Mode.FPS initialState

/-- The lamp fully lit and just switched off, no key held. -/
def stateFading : State ℚ :=
  { (initialState : State ℚ) with lampAnim := 1 }

/-- The state after the tick the script runs at load (the call `animate()` at
the end of the script), before either loader has completed. -/
def stateAfterLoad : State ℚ := (animate envMinusZ (1 / 60) initialState).state

/-- W pressed after the load-time tick, the lamp references not yet
published. -/
def stateLoadingW : State ℚ := keydown KeyCode.KeyW stateAfterLoad

/-- The character loaded from a file with two clips, neither named as a walk
(so `animations[1]` is the walk clip), then W pressed. -/
def stateWalkStart : State ℚ := keydown KeyCode.KeyW (characterLoaded 2 none stateAfterLoad)

/-! ## The spec's wording of the third-person accumulation -/

/-- The third-person `move` as the spec words it ("accumulate using
forward/right the same way" as first-person): `+forward` for W, `-forward` for
S, `-right` for A, `+right` for D, with `right = up × forward` normalised. -/
def specTpsMove {K : Type} [LinearOrderedField K] (sqrt : K → K) (look : Vec3 K)
    (keys : Keys) : Vec3 K :=
  let forward := cameraDirection sqrt look
  let right := tpsRight sqrt forward
  let move := Vec3.zero
  let move := if keys.w then Vec3.add move forward else move
  let move := if keys.s then Vec3.sub move forward else move
  let move := if keys.a then Vec3.sub move right else move
  let move := if keys.d then Vec3.add move right else move
  move

/-! ## What a tick leaves of each variable -/

theorem idleStarted_lampAnim {K : Type} (s : State K) :
    (idleStarted s).lampAnim = s.lampAnim := by
  unfold idleStarted
  split
  · split <;> rfl
  · rfl

theorem idleStarted_lampMesh {K : Type} (s : State K) :
    (idleStarted s).lampMesh = s.lampMesh := by
  unfold idleStarted
  split
  · split <;> rfl
  · rfl

theorem idleStarted_lampLight {K : Type} (s : State K) :
    (idleStarted s).lampLight = s.lampLight := by
  unfold idleStarted
  split
  · split <;> rfl
  · rfl

theorem idleStarted_playerPosition {K : Type} (s : State K) :
    (idleStarted s).playerPosition = s.playerPosition := by
  unfold idleStarted
  split
  · split <;> rfl
  · rfl

theorem idleStarted_cameraPosition {K : Type} (s : State K) :
    (idleStarted s).cameraPosition = s.cameraPosition := by
  unfold idleStarted
  split
  · split <;> rfl
  · rfl

theorem idleStarted_keys {K : Type} (s : State K) :
    (idleStarted s).keys = s.keys := by
  unfold idleStarted
  split
  · split <;> rfl
  · rfl

theorem idleStarted_mode {K : Type} (s : State K) :
    (idleStarted s).mode = s.mode := by
  unfold idleStarted
  split
  · split <;> rfl
  · rfl

section Projections

variable {K : Type} [LinearOrderedField K]

theorem animate_lampAnim (env : Env K) (dt : K) (s : State K) :
    (animate env dt s).1.lampAnim = lampStep s.lampState s.lampAnim := by
  unfold animate
  cases s.mode <;> simp only [] <;> split <;> simp [idleStarted_lampAnim]

theorem animate_lampLight (env : Env K) (dt : K) (s : State K) :
    (animate env dt s).1.lampLight
      = updateLampLight (lampStep s.lampState s.lampAnim) s.lampLight := by
  unfold animate
  cases s.mode <;> simp only [] <;> split <;> simp [idleStarted_lampLight]

theorem animate_lampMesh (env : Env K) (dt : K) (s : State K) :
    (animate env dt s).1.lampMesh
      = updateLampMesh (lampStep s.lampState s.lampAnim) s.lampMesh := by
  unfold animate
  cases s.mode <;> simp only [] <;> split <;> simp [idleStarted_lampMesh]

theorem animate_keys (env : Env K) (dt : K) (s : State K) :
    (animate env dt s).1.keys = s.keys := by
  unfold animate
  cases s.mode <;> simp only [] <;> split <;> simp [idleStarted_keys]

theorem animate_mode (env : Env K) (dt : K) (s : State K) :
    (animate env dt s).1.mode = s.mode := by
  unfold animate
  cases h : s.mode <;> simp only [] <;> split <;> simp [idleStarted_mode]

/-- The player position after a tick, in either mode. -/
theorem animate_playerPosition (env : Env K) (dt : K) (s : State K) :
    (animate env dt s).1.playerPosition
      = if Vec3.lengthSq (moveVector env.sqrt env.look s.mode s.keys) > 0 then
          Vec3.add s.playerPosition
            (Vec3.multiplyScalar
              (Vec3.normalize env.sqrt (moveVector env.sqrt env.look s.mode s.keys))
              (walkSpeed * dt))
        else s.playerPosition := by
  unfold animate
  cases s.mode <;> simp only [moveVector] <;> split <;> simp [idleStarted_playerPosition]

/-- The camera position after a first-person tick. -/
theorem animate_cameraPosition_fps (env : Env K) (dt : K) (s : State K)
    (hm : s.mode = Mode.FPS) :
    (animate env dt s).1.cameraPosition
      = if Vec3.lengthSq (fpsMove env.sqrt env.look s.keys) > 0 then
          Vec3.add (animate env dt s).1.playerPosition ⟨0, 16 / 10, 0⟩
        else s.cameraPosition := by
  unfold animate
  rw [hm]
  simp only []
  split
  · simp [Vec3.add]
  · simp [idleStarted_cameraPosition]

/-- Whether a tick throws: exactly when `move` is non-zero. -/
theorem animate_threw (env : Env K) (dt : K) (s : State K) :
    (animate env dt s).threw
      = decide (Vec3.lengthSq (moveVector env.sqrt env.look s.mode s.keys) > 0) := by
  unfold animate
  cases s.mode <;> simp only [moveVector] <;> split <;> simp_all

/-- The animation calls of a tick, in either mode. -/
theorem animate_cmds (env : Env K) (dt : K) (s : State K) :
    (animate env dt s).cmds
      = if Vec3.lengthSq (moveVector env.sqrt env.look s.mode s.keys) > 0 then []
        else idleCmds (mixerStep env dt s.mixerTime s.idleAction)
          (mixerStep env dt s.mixerTime s.walkAction) := by
  unfold animate
  cases s.mode <;> simp only [moveVector] <;> split <;> simp_all

end Projections

/-! ## Lamp blend -/

section Lamp

variable {K : Type} [LinearOrderedField K]

theorem lampTarget_cases (ls : Nat) : lampTarget ls = (0 : K) ∨ lampTarget ls = (1 : K) := by
  unfold lampTarget
  split
  · exact Or.inr rfl
  · exact Or.inl rfl

theorem lampStep_eq (ls : Nat) (b : K) :
    lampStep ls b = b + (lampTarget ls - b) * (15 / 100) := by
  unfold lampStep lerp
  ring

theorem lampStep_gap (ls : Nat) (b : K) :
    lampTarget ls - lampStep ls b = 85 / 100 * (lampTarget ls - b) := by
  rw [lampStep_eq]
  ring

theorem lampStep_mem (ls : Nat) (b : K) (h0 : 0 ≤ b) (h1 : b ≤ 1) :
    0 ≤ lampStep ls b ∧ lampStep ls b ≤ 1 := by
  rw [lampStep_eq]
  rcases (lampTarget_cases ls : lampTarget ls = (0 : K) ∨ _) with h | h <;> rw [h] <;> constructor <;> linarith

theorem lampStep_iterate_mem (ls : Nat) (b : K) (h0 : 0 ≤ b) (h1 : b ≤ 1) (n : Nat) :
    0 ≤ (lampStep ls)^[n] b ∧ (lampStep ls)^[n] b ≤ 1 := by
  induction n with
  | zero => exact ⟨h0, h1⟩
  | succ n ih =>
    rw [Function.iterate_succ_apply']
    exact lampStep_mem ls _ ih.1 ih.2

/-- C1: from a blend in [0,1], every iterate of the lamp update
`lampAnim <- lerp(lampAnim, target, 0.15)` stays in [0,1]; the update is
`blend + (target - blend) * 0.15`, and each step leaves exactly 0.85 of the
signed gap to the target, so the distance to the target is 0.85 times the
distance before and the blend neither overshoots nor moves away. -/
theorem lamp_blend_invariant (ls : Nat) (b0 : K) (h0 : 0 ≤ b0) (h1 : b0 ≤ 1) (n : Nat) :
    (lampTarget ls = (0 : K) ∨ lampTarget ls = (1 : K)) ∧
    (0 ≤ (lampStep ls)^[n] b0 ∧ (lampStep ls)^[n] b0 ≤ 1) ∧
    (lampStep ls)^[n + 1] b0
      = (lampStep ls)^[n] b0 + (lampTarget ls - (lampStep ls)^[n] b0) * (15 / 100) ∧
    lampTarget ls - (lampStep ls)^[n + 1] b0
      = 85 / 100 * (lampTarget ls - (lampStep ls)^[n] b0) ∧
    |lampTarget ls - (lampStep ls)^[n + 1] b0|
      = 85 / 100 * |lampTarget ls - (lampStep ls)^[n] b0| ∧
    |lampTarget ls - (lampStep ls)^[n + 1] b0| ≤ |lampTarget ls - (lampStep ls)^[n] b0| ∧
    ((lampStep ls)^[n] b0 ≤ lampTarget ls →
      (lampStep ls)^[n] b0 ≤ (lampStep ls)^[n + 1] b0 ∧
      (lampStep ls)^[n + 1] b0 ≤ lampTarget ls) ∧
    (lampTarget ls ≤ (lampStep ls)^[n] b0 →
      lampTarget ls ≤ (lampStep ls)^[n + 1] b0 ∧
      (lampStep ls)^[n + 1] b0 ≤ (lampStep ls)^[n] b0) := by
  have hb' : (lampStep ls)^[n + 1] b0 = lampStep ls ((lampStep ls)^[n] b0) :=
    Function.iterate_succ_apply' _ _ _
  generalize (lampStep ls)^[n + 1] b0 = b' at hb'
  have hmem := lampStep_iterate_mem ls b0 h0 h1 n
  generalize (lampStep ls)^[n] b0 = b at hb' hmem
  have hgap : lampTarget ls - b' = 85 / 100 * (lampTarget ls - b) := by
    rw [hb']; exact lampStep_gap ls b
  have habs : |lampTarget ls - b'| = 85 / 100 * |lampTarget ls - b| := by
    rw [hgap, abs_mul, abs_of_pos (by norm_num : (0 : K) < 85 / 100)]
  refine ⟨lampTarget_cases ls, hmem, ?_, hgap, habs, ?_, ?_, ?_⟩
  · rw [hb']; exact lampStep_eq ls b
  · rw [habs]
    have := abs_nonneg (lampTarget ls - b)
    linarith
  · intro h
    constructor <;> linarith
  · intro h
    constructor <;> linarith

/-- Witness of C1: lamp requested on, blend starting at 0, third iterate. -/
theorem lamp_blend_invariant_witness :
    (0 : ℚ) ≤ 0 ∧ (0 : ℚ) ≤ 1 ∧
    (lampStep 1)^[3] (0 : ℚ) = 3087 / 8000 ∧
    |lampTarget 1 - (lampStep 1)^[3 + 1] (0 : ℚ)|
      = 85 / 100 * |lampTarget 1 - (lampStep 1)^[3] (0 : ℚ)| :=
  ⟨le_refl 0, zero_le_one,
    by norm_num [Function.iterate_succ_apply', lampStep, lerp, lampTarget],
    (lamp_blend_invariant 1 (0 : ℚ) (le_refl 0) zero_le_one 3).2.2.2.2.1⟩

/-- C2, as stated, fails: with a lamp light whose captured original intensity is
0 and the lamp requested on, the first tick brings the blend to 3/20 and writes
intensity 3/20 (blend times the fallback 1), not blend times 0. -/
theorem lamp_light_intensity_counterexample :
    (animate envMinusZ (1 / 60) stateDarkLight).1.lampAnim = 3 / 20 ∧
    (animate envMinusZ (1 / 60) stateDarkLight).1.lampLight
      = some (LampLight.mk (3 / 20) 0) ∧
    (animate envMinusZ (1 / 60) stateDarkLight).1.lampLight
      ≠ some (LampLight.mk (3 / 20 * 0) 0) := by
  have ha : (animate envMinusZ (1 / 60) stateDarkLight).1.lampAnim = 3 / 20 := by
    rw [animate_lampAnim]
    norm_num [stateDarkLight, initialState, lampStep, lerp, lampTarget]
  have hl : (animate envMinusZ (1 / 60) stateDarkLight).1.lampLight
      = some (LampLight.mk (3 / 20) 0) := by
    rw [animate_lampLight]
    norm_num [stateDarkLight, initialState, captureLampLight, updateLampLight, lampStep, lerp,
      lampTarget]
  refine ⟨ha, hl, ?_⟩
  rw [hl]
  norm_num

/-- C2, amended: on a tick with the lamp light present and a captured original
intensity other than 0, the intensity written is exactly the just-updated blend
times the original intensity, and the captured value is kept. -/
theorem lamp_light_intensity (env : Env K) (dt : K) (s : State K) (l : LampLight K)
    (hl : s.lampLight = some l) (ho : l.originalIntensity ≠ 0) :
    (animate env dt s).1.lampLight
      = some (LampLight.mk ((animate env dt s).1.lampAnim * l.originalIntensity)
          l.originalIntensity) ∧
    (animate env dt s).1.lampAnim = lerp s.lampAnim (lampTarget s.lampState) (15 / 100) := by
  rw [animate_lampLight, animate_lampAnim, hl]
  exact ⟨by simp [updateLampLight, ho], rfl⟩

/-- Witness of the amended C2: a light captured at intensity 2, lamp requested
on, first tick. -/
theorem lamp_light_intensity_witness :
    (animate envMinusZ (1 / 60) stateBrightLight).1.lampAnim = 3 / 20 ∧
    (animate envMinusZ (1 / 60) stateBrightLight).1.lampLight
      = some (LampLight.mk (3 / 20 * 2) 2) := by
  have h := (lamp_light_intensity envMinusZ (1 / 60) stateBrightLight (captureLampLight 2)
    rfl (by norm_num [captureLampLight])).1
  have ha : (animate envMinusZ (1 / 60) stateBrightLight).1.lampAnim = 3 / 20 := by
    rw [animate_lampAnim]
    norm_num [stateBrightLight, initialState, lampStep, lerp, lampTarget]
  refine ⟨ha, ?_⟩
  rw [h, ha]
  rfl

end Lamp

/-! ## Vectors and normalisation -/

section Vectors

variable {K : Type} [LinearOrderedField K]

theorem Vec3.lengthSq_nonneg (v : Vec3 K) : 0 ≤ Vec3.lengthSq v := by
  unfold Vec3.lengthSq
  have hx := mul_self_nonneg v.x
  have hy := mul_self_nonneg v.y
  have hz := mul_self_nonneg v.z
  linarith

theorem Vec3.lengthSq_eq_zero_iff (v : Vec3 K) : Vec3.lengthSq v = 0 ↔ v = Vec3.zero := by
  constructor
  · intro h
    unfold Vec3.lengthSq at h
    have hx := mul_self_nonneg v.x
    have hy := mul_self_nonneg v.y
    have hz := mul_self_nonneg v.z
    have h1 : v.x * v.x = 0 := by linarith
    have h2 : v.y * v.y = 0 := by linarith
    have h3 : v.z * v.z = 0 := by linarith
    ext
    · exact mul_self_eq_zero.mp h1
    · exact mul_self_eq_zero.mp h2
    · exact mul_self_eq_zero.mp h3
  · intro h
    rw [h]
    simp [Vec3.lengthSq, Vec3.zero]

theorem Vec3.lengthSq_pos_iff (v : Vec3 K) : Vec3.lengthSq v > 0 ↔ v ≠ Vec3.zero := by
  rw [gt_iff_lt, lt_iff_le_and_ne]
  constructor
  · rintro ⟨_, h⟩ hv
    exact h ((Vec3.lengthSq_eq_zero_iff v).mpr hv).symm
  · intro h
    exact ⟨Vec3.lengthSq_nonneg v, fun h0 => h ((Vec3.lengthSq_eq_zero_iff v).mp h0.symm)⟩

theorem Vec3.lengthSq_multiplyScalar (v : Vec3 K) (k : K) :
    Vec3.lengthSq (Vec3.multiplyScalar v k) = Vec3.lengthSq v * (k * k) := by
  unfold Vec3.lengthSq Vec3.multiplyScalar
  ring

theorem ExactSqrt.sqrt_mul_self {sqrt : K → K} (hs : ExactSqrt sqrt) (x : K) (hx : 0 ≤ x) :
    sqrt (x * x) = x := by
  obtain ⟨h0, h1⟩ := hs (x * x) (mul_self_nonneg x)
  exact (mul_self_inj h0 hx).mp h1

theorem ExactSqrt.sqrt_one {sqrt : K → K} (hs : ExactSqrt sqrt) : sqrt 1 = 1 := by
  have h := hs.sqrt_mul_self 1 zero_le_one
  rwa [mul_one] at h

theorem ExactSqrt.real : ExactSqrt Real.sqrt :=
  fun x hx => ⟨Real.sqrt_nonneg x, Real.mul_self_sqrt hx⟩

/-- A non-zero vector is normalised to unit length. -/
theorem Vec3.lengthSq_normalize {sqrt : K → K} (hs : ExactSqrt sqrt) (v : Vec3 K)
    (hv : Vec3.lengthSq v > 0) : Vec3.lengthSq (Vec3.normalize sqrt v) = 1 := by
  obtain ⟨_, h1⟩ := hs (Vec3.lengthSq v) (Vec3.lengthSq_nonneg v)
  have hl : sqrt (Vec3.lengthSq v) ≠ 0 := by
    intro h0
    rw [h0, mul_zero] at h1
    exact absurd h1.symm (ne_of_gt hv)
  unfold Vec3.normalize Vec3.length
  rw [if_neg hl, Vec3.lengthSq_multiplyScalar]
  have : Vec3.lengthSq v * (1 / sqrt (Vec3.lengthSq v) * (1 / sqrt (Vec3.lengthSq v)))
      = Vec3.lengthSq v / (sqrt (Vec3.lengthSq v) * sqrt (Vec3.lengthSq v)) := by
    field_simp
  rw [this, h1]
  exact div_self (ne_of_gt hv)

/-- The zero vector is normalised to itself. -/
theorem Vec3.normalize_zero (sqrt : K → K) : Vec3.normalize sqrt (Vec3.zero : Vec3 K) = Vec3.zero := by
  simp [Vec3.normalize, Vec3.multiplyScalar, Vec3.zero]

/-- A unit vector is normalised to itself. -/
theorem Vec3.normalize_unit {sqrt : K → K} (hs : ExactSqrt sqrt) (v : Vec3 K)
    (hv : Vec3.lengthSq v = 1) : Vec3.normalize sqrt v = v := by
  unfold Vec3.normalize Vec3.length
  rw [hv, hs.sqrt_one, if_neg one_ne_zero]
  simp [Vec3.multiplyScalar]

theorem Vec3.normalize_y (sqrt : K → K) (v : Vec3 K) (hv : v.y = 0) :
    (Vec3.normalize sqrt v).y = 0 := by
  simp [Vec3.normalize, Vec3.multiplyScalar, hv]

end Vectors

/-! ## Movement -/

section Movement

variable {K : Type} [LinearOrderedField K]

theorem fpsForwardVector_y (sqrt : K → K) (look : Vec3 K) : (fpsForwardVector sqrt look).y = 0 :=
  Vec3.normalize_y sqrt _ rfl

theorem cameraDirection_y (sqrt : K → K) (look : Vec3 K) : (cameraDirection sqrt look).y = 0 :=
  Vec3.normalize_y sqrt _ rfl

theorem fpsRight_y (sqrt : K → K) (f : Vec3 K) : (fpsRight sqrt f).y = 0 :=
  Vec3.normalize_y sqrt _ (by simp [Vec3.crossVectors, up])

theorem tpsRight_y (sqrt : K → K) (f : Vec3 K) : (tpsRight sqrt f).y = 0 :=
  Vec3.normalize_y sqrt _ (by simp [Vec3.crossVectors, up])

theorem moveVector_y (sqrt : K → K) (look : Vec3 K) (mode : Mode) (keys : Keys) :
    (moveVector sqrt look mode keys).y = 0 := by
  have hf := fpsForwardVector_y sqrt look
  have hc := cameraDirection_y sqrt look
  have hr := fpsRight_y sqrt (fpsForwardVector sqrt look)
  have ht := tpsRight_y sqrt (cameraDirection sqrt look)
  cases mode <;> simp only [moveVector, fpsMove, tpsMove] <;>
    cases keys.w <;> cases keys.s <;> cases keys.a <;> cases keys.d <;>
    simp [Vec3.add, Vec3.sub, Vec3.zero, hf, hc, hr, ht]

/-- The displacement of the player over a tick with non-zero `move`. -/
theorem animate_displacement (env : Env K) (dt : K) (s : State K)
    (hmove : moveVector env.sqrt env.look s.mode s.keys ≠ Vec3.zero) :
    Vec3.sub (animate env dt s).1.playerPosition s.playerPosition
      = Vec3.multiplyScalar
          (Vec3.normalize env.sqrt (moveVector env.sqrt env.look s.mode s.keys))
          (walkSpeed * dt) := by
  rw [animate_playerPosition, if_pos ((Vec3.lengthSq_pos_iff _).mpr hmove)]
  ext <;> simp [Vec3.sub, Vec3.add]

theorem displacement_lengthSq (env : Env K) (hs : ExactSqrt env.sqrt) (dt : K) (s : State K)
    (hmove : moveVector env.sqrt env.look s.mode s.keys ≠ Vec3.zero) :
    Vec3.lengthSq (Vec3.sub (animate env dt s).1.playerPosition s.playerPosition)
      = (5 * dt) * (5 * dt) := by
  rw [animate_displacement env dt s hmove, Vec3.lengthSq_multiplyScalar,
    Vec3.lengthSq_normalize hs _ ((Vec3.lengthSq_pos_iff _).mpr hmove), one_mul]
  rfl

/-- C3: in either mode, with an exact square root, a tick whose accumulated
movement vector is non-zero displaces the player by a vector with y component 0
and squared length `(5 * dt)^2`, so of length `walkSpeed * dt = 5 * dt` for an
elapsed time `dt ≥ 0`; any two key sets with non-zero movement, such as W+D and
W alone, give displacements of the same length. -/
theorem move_speed (env : Env K) (hs : ExactSqrt env.sqrt) (dt : K) (s : State K)
    (hmove : moveVector env.sqrt env.look s.mode s.keys ≠ Vec3.zero) :
    (animate env dt s).1.playerPosition
      = Vec3.add s.playerPosition
          (Vec3.sub (animate env dt s).1.playerPosition s.playerPosition) ∧
    (Vec3.sub (animate env dt s).1.playerPosition s.playerPosition).y = 0 ∧
    Vec3.lengthSq (Vec3.sub (animate env dt s).1.playerPosition s.playerPosition)
      = (5 * dt) * (5 * dt) ∧
    (0 ≤ dt →
      Vec3.length env.sqrt (Vec3.sub (animate env dt s).1.playerPosition s.playerPosition)
        = walkSpeed * dt ∧ (walkSpeed : K) * dt = 5 * dt) ∧
    (∀ keys : Keys, moveVector env.sqrt env.look s.mode keys ≠ Vec3.zero →
      Vec3.lengthSq (Vec3.sub (animate env dt (withKeys keys s)).1.playerPosition
          s.playerPosition)
        = Vec3.lengthSq (Vec3.sub (animate env dt s).1.playerPosition s.playerPosition)) := by
  have hlen := displacement_lengthSq env hs dt s hmove
  refine ⟨?_, ?_, hlen, ?_, ?_⟩
  · ext <;> simp [Vec3.sub, Vec3.add]
  · rw [animate_displacement env dt s hmove]
    simp [Vec3.multiplyScalar, Vec3.normalize_y env.sqrt _ (moveVector_y _ _ _ _)]
  · intro hdt
    refine ⟨?_, rfl⟩
    unfold Vec3.length
    rw [hlen]
    exact hs.sqrt_mul_self (5 * dt) (by positivity)
  · intro keys hk
    rw [hlen]
    exact displacement_lengthSq env hs dt (withKeys keys s) hk

/-- Witness of C3: third-person mode, camera facing `-Z`, W and D held,
`dt = 1/10`, over the reals with the real square root. -/
theorem move_speed_witness :
    moveVector Real.sqrt (⟨0, 0, -1⟩ : Vec3 ℝ) Mode.TPS keysWD = ⟨1, 0, -1⟩ ∧
    Vec3.lengthSq (Vec3.sub
        (animate (facing Real.sqrt ⟨0, 0, -1⟩) (1 / 10)
          (withKeys keysWD initialState)).1.playerPosition
        (⟨0, 0, 5⟩ : Vec3 ℝ))
      = (5 * (1 / 10)) * (5 * (1 / 10)) := by
  have hm : moveVector Real.sqrt (⟨0, 0, -1⟩ : Vec3 ℝ) Mode.TPS keysWD = ⟨1, 0, -1⟩ := by
    norm_num [moveVector, tpsMove, keysWD, cameraDirection, tpsRight, Vec3.normalize, Vec3.length,
      Vec3.lengthSq, Vec3.flatten, Vec3.crossVectors, Vec3.multiplyScalar, Vec3.add, Vec3.sub,
      Vec3.zero, up]
  refine ⟨hm, ?_⟩
  have hne : moveVector Real.sqrt (⟨0, 0, -1⟩ : Vec3 ℝ) Mode.TPS keysWD ≠ Vec3.zero := by
    rw [hm]
    intro h
    have hx := congrArg Vec3.x h
    norm_num [Vec3.zero] at hx
  exact (move_speed (facing Real.sqrt ⟨0, 0, -1⟩) ExactSqrt.real (1 / 10)
    (withKeys keysWD initialState) hne).2.2.1

theorem cameraDirection_unit_or_zero {sqrt : K → K} (hs : ExactSqrt sqrt) (look : Vec3 K) :
    cameraDirection sqrt look = Vec3.zero ∨ Vec3.lengthSq (cameraDirection sqrt look) = 1 := by
  by_cases h : Vec3.flatten look = Vec3.zero
  · left
    unfold cameraDirection
    rw [h]
    exact Vec3.normalize_zero sqrt
  · right
    exact Vec3.lengthSq_normalize hs _ ((Vec3.lengthSq_pos_iff _).mpr h)

theorem tpsMove_forward_only (sqrt : K → K) (look : Vec3 K) :
    tpsMove sqrt look ⟨true, false, false, false⟩ = cameraDirection sqrt look := by
  ext <;> simp [tpsMove, Vec3.add, Vec3.zero]

/-- C4: in third-person mode with only the forward key held and an exact square
root, for every `dt` and every look direction, one tick takes the player from
`p` to `p + 5 * dt * d`, where `d` is the look direction with `y = 0`,
normalised. -/
theorem tps_forward_step (env : Env K) (hs : ExactSqrt env.sqrt) (dt : K) (s : State K)
    (hmode : s.mode = Mode.TPS) (hkeys : s.keys = ⟨true, false, false, false⟩) :
    (animate env dt s).1.playerPosition
      = Vec3.add s.playerPosition
          (Vec3.multiplyScalar (Vec3.normalize env.sqrt (Vec3.flatten env.look)) (5 * dt)) := by
  rw [animate_playerPosition, hmode, hkeys]
  simp only [moveVector]
  rw [tpsMove_forward_only]
  change _ = Vec3.add s.playerPosition
    (Vec3.multiplyScalar (cameraDirection env.sqrt env.look) (5 * dt))
  rcases cameraDirection_unit_or_zero hs env.look with h | h
  · rw [h]
    simp [Vec3.lengthSq, Vec3.zero, Vec3.add, Vec3.multiplyScalar]
  · rw [h, if_pos one_pos, Vec3.normalize_unit hs _ h]
    rfl

/-- Witness of C4: `dt = 0.1`, player at `(0, 0, 5)`, camera facing `-Z`, only W
held: the player arrives at `(0, 0, 4.5)`. -/
theorem tps_forward_step_witness :
    (animate (facing Real.sqrt ⟨0, 0, -1⟩) (1 / 10)
      (withKeys ⟨true, false, false, false⟩ initialState)).1.playerPosition
      = (⟨0, 0, 45 / 10⟩ : Vec3 ℝ) := by
  rw [tps_forward_step (facing Real.sqrt ⟨0, 0, -1⟩) ExactSqrt.real (1 / 10)
    (withKeys ⟨true, false, false, false⟩ initialState) rfl rfl]
  norm_num [facing, initialState, withKeys, Vec3.normalize, Vec3.length, Vec3.lengthSq, Vec3.flatten,
    Vec3.multiplyScalar, Vec3.add]

/-- C5, as stated, fails: facing `-Z` with only A held, `right = up × forward`
is `(-1, 0, 0)`; the third-person branch adds it, giving `(-1, 0, 0)`, where the
claimed rule subtracts it, giving `(1, 0, 0)`; after a tick of 0.1 s the player
is at `(-0.5, 0, 5)`. -/
theorem tps_accumulation_counterexample :
    tpsRight Rat.sqrt (cameraDirection Rat.sqrt ⟨0, 0, -1⟩) = ⟨-1, 0, 0⟩ ∧
    tpsMove Rat.sqrt ⟨0, 0, -1⟩ keysA = ⟨-1, 0, 0⟩ ∧
    specTpsMove Rat.sqrt ⟨0, 0, -1⟩ keysA = ⟨1, 0, 0⟩ ∧
    tpsMove Rat.sqrt ⟨0, 0, -1⟩ keysA ≠ specTpsMove Rat.sqrt ⟨0, 0, -1⟩ keysA ∧
    (animate envMinusZ (1 / 10) stateStrafeA).1.playerPosition = ⟨-1 / 2, 0, 5⟩ := by
  have hsqrt : Rat.sqrt 1 = 1 := by
    have h := Rat.sqrt_eq 1
    rwa [mul_one, abs_one] at h
  have hr : tpsRight Rat.sqrt (cameraDirection Rat.sqrt ⟨0, 0, -1⟩) = ⟨-1, 0, 0⟩ := by
    norm_num [cameraDirection, tpsRight, Vec3.normalize, Vec3.length, Vec3.lengthSq, Vec3.flatten,
      Vec3.crossVectors, Vec3.multiplyScalar, up, hsqrt]
  have ht : tpsMove Rat.sqrt ⟨0, 0, -1⟩ keysA = ⟨-1, 0, 0⟩ := by
    simp only [tpsMove, keysA, hr]
    norm_num [Vec3.add, Vec3.zero]
  have hc : specTpsMove Rat.sqrt ⟨0, 0, -1⟩ keysA = ⟨1, 0, 0⟩ := by
    simp only [specTpsMove, keysA, hr]
    norm_num [Vec3.sub, Vec3.zero]
  refine ⟨hr, ht, hc, ?_, ?_⟩
  · rw [ht, hc]
    intro h
    have hx := congrArg Vec3.x h
    norm_num at hx
  · rw [animate_playerPosition]
    have hm : moveVector envMinusZ.sqrt envMinusZ.look stateStrafeA.mode stateStrafeA.keys
        = ⟨-1, 0, 0⟩ := ht
    rw [hm]
    norm_num [Vec3.normalize, Vec3.length, Vec3.lengthSq, Vec3.multiplyScalar, Vec3.add,
      envMinusZ, facing, hsqrt, stateStrafeA, initialState, walkSpeed]

/-- C5, amended: with `forward` the normalised horizontal look direction and
`right = up × forward` normalised, the third-person branch accumulates
`+forward` for W, `-forward` for S, `+right` for A and `-right` for D, the
left/right signs being the opposite of those the first-person branch applies to
its own `right = forward × up`; it is the spec's rule with A and D exchanged. -/
theorem tps_move_accumulation (sqrt : K → K) (look : Vec3 K) (keys : Keys) :
    tpsMove sqrt look keys
      = Vec3.add
          (Vec3.multiplyScalar (cameraDirection sqrt look)
            ((if keys.w then 1 else 0) - (if keys.s then 1 else 0)))
          (Vec3.multiplyScalar (tpsRight sqrt (cameraDirection sqrt look))
            ((if keys.a then 1 else 0) - (if keys.d then 1 else 0))) ∧
    fpsMove sqrt look keys
      = Vec3.add
          (Vec3.multiplyScalar (fpsForwardVector sqrt look)
            ((if keys.w then 1 else 0) - (if keys.s then 1 else 0)))
          (Vec3.multiplyScalar (fpsRight sqrt (fpsForwardVector sqrt look))
            ((if keys.d then 1 else 0) - (if keys.a then 1 else 0))) ∧
    tpsMove sqrt look keys
      = specTpsMove sqrt look (Keys.mk keys.w keys.d keys.s keys.a) := by
  refine ⟨?_, ?_, ?_⟩
  · simp only [tpsMove]
    cases keys.w <;> cases keys.s <;> cases keys.a <;> cases keys.d <;>
      ext <;> simp [Vec3.add, Vec3.sub, Vec3.zero, Vec3.multiplyScalar] <;> ring
  · simp only [fpsMove]
    cases keys.w <;> cases keys.s <;> cases keys.a <;> cases keys.d <;>
      ext <;> simp [Vec3.add, Vec3.sub, Vec3.zero, Vec3.multiplyScalar] <;> ring
  · simp only [tpsMove, specTpsMove]
    cases keys.w <;> cases keys.s <;> cases keys.a <;> cases keys.d <;>
      ext <;> simp [Vec3.add, Vec3.sub, Vec3.zero]

/-- C6, as stated, fails: entering first-person mode from the initial state with
no key held, a tick leaves the camera at `(0, 2, 3)` while the player stays at
`(0, 0, 5)`, so the camera is not at the player position plus `(0, 1.6, 0)`. -/
theorem fps_camera_pin_counterexample :
    (animate envMinusZ (1 / 60) stateEnterFps).1.playerPosition = ⟨0, 0, 5⟩ ∧
    (animate envMinusZ (1 / 60) stateEnterFps).1.cameraPosition = ⟨0, 2, 3⟩ ∧
    (animate envMinusZ (1 / 60) stateEnterFps).1.cameraPosition
      ≠ Vec3.add (animate envMinusZ (1 / 60) stateEnterFps).1.playerPosition ⟨0, 16 / 10, 0⟩ := by
  have hm : fpsMove envMinusZ.sqrt envMinusZ.look stateEnterFps.keys = Vec3.zero := by
    simp [fpsMove, stateEnterFps, setMode, initialState]
  have hz : ¬ Vec3.lengthSq (Vec3.zero : Vec3 ℚ) > 0 := by
    simp [Vec3.lengthSq, Vec3.zero]
  have hp : (animate envMinusZ (1 / 60) stateEnterFps).1.playerPosition = ⟨0, 0, 5⟩ := by
    rw [animate_playerPosition]
    have hmode : stateEnterFps.mode = Mode.FPS := rfl
    rw [hmode]
    simp only [moveVector]
    rw [hm, if_neg hz]
    rfl
  have hc : (animate envMinusZ (1 / 60) stateEnterFps).1.cameraPosition = ⟨0, 2, 3⟩ := by
    rw [animate_cameraPosition_fps _ _ _ rfl, hm, if_neg hz]
    rfl
  refine ⟨hp, hc, ?_⟩
  rw [hp, hc]
  intro h
  have hy := congrArg Vec3.y h
  norm_num [Vec3.add] at hy

/-- C6, amended: a first-person tick whose accumulated movement vector is
non-zero leaves the camera at the updated player position plus `(0, 1.6, 0)`; a
first-person tick with zero movement leaves both the player position and the
camera position as they were, so a pin that held before the tick still holds. -/
theorem fps_camera_pin (env : Env K) (dt : K) (s : State K) (hmode : s.mode = Mode.FPS) :
    (fpsMove env.sqrt env.look s.keys ≠ Vec3.zero →
      (animate env dt s).1.cameraPosition
        = Vec3.add (animate env dt s).1.playerPosition ⟨0, 16 / 10, 0⟩) ∧
    (fpsMove env.sqrt env.look s.keys = Vec3.zero →
      (animate env dt s).1.cameraPosition = s.cameraPosition ∧
      (animate env dt s).1.playerPosition = s.playerPosition ∧
      (s.cameraPosition = Vec3.add s.playerPosition ⟨0, 16 / 10, 0⟩ →
        (animate env dt s).1.cameraPosition
          = Vec3.add (animate env dt s).1.playerPosition ⟨0, 16 / 10, 0⟩)) := by
  constructor
  · intro h
    rw [animate_cameraPosition_fps env dt s hmode, if_pos ((Vec3.lengthSq_pos_iff _).mpr h)]
  · intro h
    have hz : ¬ Vec3.lengthSq (Vec3.zero : Vec3 K) > 0 := by
      simp [Vec3.lengthSq, Vec3.zero]
    have hc : (animate env dt s).1.cameraPosition = s.cameraPosition := by
      rw [animate_cameraPosition_fps env dt s hmode, h, if_neg hz]
    have hp : (animate env dt s).1.playerPosition = s.playerPosition := by
      rw [animate_playerPosition, hmode]
      simp only [moveVector]
      rw [h, if_neg hz]
    refine ⟨hc, hp, ?_⟩
    intro hpin
    rw [hc, hp, hpin]

/-- Witness of the amended C6: first-person mode, facing `-Z`, W held, a tick of
0.1 s from the initial positions: the player is at `(0, 0, 4.5)` and the camera
at `(0, 1.6, 4.5)`. -/
theorem fps_camera_pin_witness :
    fpsMove Real.sqrt (⟨0, 0, -1⟩ : Vec3 ℝ) keysW = ⟨0, 0, -1⟩ ∧
    (animate (facing Real.sqrt ⟨0, 0, -1⟩) (1 / 10)
      (withKeys keysW (setMode Mode.FPS initialState))).1.cameraPosition
      = Vec3.add
          (animate (facing Real.sqrt ⟨0, 0, -1⟩) (1 / 10)
            (withKeys keysW (setMode Mode.FPS initialState))).1.playerPosition
          (⟨0, 16 / 10, 0⟩ : Vec3 ℝ) := by
  have hm : fpsMove Real.sqrt (⟨0, 0, -1⟩ : Vec3 ℝ) keysW = ⟨0, 0, -1⟩ := by
    norm_num [fpsMove, keysW, fpsForwardVector, Vec3.normalize, Vec3.length, Vec3.lengthSq,
      Vec3.flatten, Vec3.multiplyScalar, Vec3.add, Vec3.zero]
  refine ⟨hm, ?_⟩
  refine (fps_camera_pin (facing Real.sqrt ⟨0, 0, -1⟩) (1 / 10)
    (withKeys keysW (setMode Mode.FPS initialState)) rfl).1 ?_
  change fpsMove Real.sqrt (⟨0, 0, -1⟩ : Vec3 ℝ) keysW ≠ Vec3.zero
  rw [hm]
  intro h
  have hz := congrArg Vec3.z h
  norm_num [Vec3.zero] at hz

theorem moveVector_noKeys (sqrt : K → K) (look : Vec3 K) (mode : Mode) :
    moveVector sqrt look mode ⟨false, false, false, false⟩ = Vec3.zero := by
  cases mode <;> simp [moveVector, fpsMove, tpsMove]

theorem lengthSq_zero_not_pos : ¬ Vec3.lengthSq (Vec3.zero : Vec3 K) > 0 := by
  simp [Vec3.lengthSq, Vec3.zero]

/-- C7: with the lamp not requested and no movement key held, for every `dt`
and in either mode, a tick leaves the player position as it was and takes the
blend to 0.85 times its old value, which is no farther from 0. -/
theorem zero_input_tick (env : Env K) (dt : K) (s : State K)
    (hlamp : s.lampState = 0) (hkeys : s.keys = ⟨false, false, false, false⟩) :
    (animate env dt s).1.playerPosition = s.playerPosition ∧
    (animate env dt s).1.lampAnim = 85 / 100 * s.lampAnim ∧
    |(animate env dt s).1.lampAnim| ≤ |s.lampAnim| := by
  have ha : (animate env dt s).1.lampAnim = 85 / 100 * s.lampAnim := by
    rw [animate_lampAnim, hlamp]
    simp only [lampStep, lerp, lampTarget]
    norm_num
  refine ⟨?_, ha, ?_⟩
  · rw [animate_playerPosition, hkeys, moveVector_noKeys, if_neg lengthSq_zero_not_pos]
  · rw [ha, abs_mul, abs_of_pos (by norm_num : (0 : K) < 85 / 100)]
    have := abs_nonneg s.lampAnim
    linarith

/-- Witness of C7: blend at 1, lamp off, no key held, player at `(0, 0, 5)`. -/
theorem zero_input_tick_witness :
    (animate envMinusZ (1 / 60) stateFading).1.playerPosition = ⟨0, 0, 5⟩ ∧
    (animate envMinusZ (1 / 60) stateFading).1.lampAnim = 85 / 100 * 1 :=
  ⟨(zero_input_tick envMinusZ (1 / 60) stateFading rfl rfl).1,
    (zero_input_tick envMinusZ (1 / 60) stateFading rfl rfl).2.1⟩

end Movement

/-! ## Absent references, toggling, animation policy -/

theorem keydown_lampAnim {K : Type} (code : KeyCode) (s : State K) :
    (keydown code s).lampAnim = s.lampAnim := by
  unfold keydown
  simp only []
  split <;> rfl

theorem keydown_KeyL_lampState {K : Type} (s : State K) :
    (keydown KeyCode.KeyL s).lampState = toggle s.lampState := by
  simp [keydown]

section Policy

variable {K : Type} [LinearOrderedField K]

/-- The lamp references do not bear on the rest of a tick: an absent reference
stays absent, the reference that is present is updated as it would be with
both present, the blend follows `blend + (target - blend) * 0.15`, and the
player position, the animation calls and whether the tick throws are those of
the same tick with any references; a tick with zero `move` does not throw. -/
theorem absent_references_same_tick (env : Env K) (dt : K) (s : State K)
    (mesh : Option (LampMesh K)) (light : Option (LampLight K)) :
    (animate env dt (withLamp none light s)).1.lampMesh = none ∧
    (animate env dt (withLamp mesh none s)).1.lampLight = none ∧
    (animate env dt (withLamp none light s)).1.lampLight
      = (animate env dt (withLamp mesh light s)).1.lampLight ∧
    (animate env dt (withLamp mesh none s)).1.lampMesh
      = (animate env dt (withLamp mesh light s)).1.lampMesh ∧
    (animate env dt (withLamp mesh light s)).1.lampAnim
      = s.lampAnim + (lampTarget s.lampState - s.lampAnim) * (15 / 100) ∧
    (animate env dt (withLamp mesh light s)).1.playerPosition
      = (animate env dt s).1.playerPosition ∧
    (animate env dt (withLamp mesh light s)).cmds = (animate env dt s).cmds ∧
    (animate env dt (withLamp mesh light s)).threw = (animate env dt s).threw ∧
    (moveVector env.sqrt env.look s.mode s.keys = Vec3.zero →
      (animate env dt (withLamp mesh light s)).threw = false) := by
  refine ⟨?_, ?_, ?_, ?_, ?_, ?_, ?_, ?_, ?_⟩
  · rw [animate_lampMesh]; rfl
  · rw [animate_lampLight]; rfl
  · rw [animate_lampLight, animate_lampLight]; rfl
  · rw [animate_lampMesh, animate_lampMesh]; rfl
  · rw [animate_lampAnim]; exact lampStep_eq _ _
  · rw [animate_playerPosition, animate_playerPosition]; rfl
  · rw [animate_cmds, animate_cmds]; rfl
  · rw [animate_threw, animate_threw]; rfl
  · intro h
    rw [animate_threw]
    change decide (Vec3.lengthSq (moveVector env.sqrt env.look s.mode s.keys) > 0) = false
    rw [h]
    simp [Vec3.lengthSq, Vec3.zero]

/-- Every tick with non-zero `move` ends in the `TypeError` of its yaw line and
issues no animation call, whatever the references and the actions. -/
theorem moving_tick_throws (env : Env K) (dt : K) (s : State K)
    (hmove : moveVector env.sqrt env.look s.mode s.keys ≠ Vec3.zero) :
    (animate env dt s).threw = true ∧ (animate env dt s).cmds = [] := by
  have h := (Vec3.lengthSq_pos_iff _).mpr hmove
  rw [animate_threw, animate_cmds, if_pos h]
  exact ⟨decide_eq_true h, rfl⟩

theorem rat_sqrt_one : Rat.sqrt 1 = 1 := by
  have h := Rat.sqrt_eq 1
  rwa [mul_one, abs_one] at h

theorem moveVector_minusZ_W :
    moveVector Rat.sqrt (⟨0, 0, -1⟩ : Vec3 ℚ) Mode.TPS keysW = ⟨0, 0, -1⟩ := by
  norm_num [moveVector, tpsMove, keysW, cameraDirection, Vec3.normalize, Vec3.length,
    Vec3.lengthSq, Vec3.flatten, Vec3.multiplyScalar, Vec3.add, Vec3.zero, rat_sqrt_one]

theorem stateAfterLoad_fields :
    stateAfterLoad.mode = Mode.TPS ∧
    stateAfterLoad.keys = ⟨false, false, false, false⟩ ∧
    stateAfterLoad.playerPosition = ⟨0, 0, 5⟩ ∧
    stateAfterLoad.lampMesh = none ∧
    stateAfterLoad.lampLight = none := by
  unfold stateAfterLoad
  refine ⟨?_, ?_, ?_, ?_, ?_⟩
  · rw [animate_mode]; rfl
  · rw [animate_keys]; rfl
  · rw [animate_playerPosition]
    have h : moveVector envMinusZ.sqrt envMinusZ.look (initialState : State ℚ).mode
        (initialState : State ℚ).keys = Vec3.zero := moveVector_noKeys _ _ _
    rw [h, if_neg lengthSq_zero_not_pos]
    rfl
  · rw [animate_lampMesh]; rfl
  · rw [animate_lampLight]; rfl

/-- C8, where the code fails: after the load-time tick, with the lamp mesh and
the lamp light still absent, third-person mode, facing `-Z` and W pressed, the
tick writes the position `(0, 0, 59/12)`, leaves the absent references absent,
and then ends in the `TypeError` of the yaw line instead of completing. -/
theorem absent_references_tick_throws :
    stateLoadingW.lampMesh = none ∧
    stateLoadingW.lampLight = none ∧
    stateLoadingW.mode = Mode.TPS ∧
    stateLoadingW.keys = keysW ∧
    stateLoadingW.playerPosition = ⟨0, 0, 5⟩ ∧
    (animate envMinusZ (1 / 60) stateLoadingW).threw = true ∧
    (animate envMinusZ (1 / 60) stateLoadingW).state.playerPosition = ⟨0, 0, 59 / 12⟩ ∧
    (animate envMinusZ (1 / 60) stateLoadingW).state.lampMesh = none ∧
    (animate envMinusZ (1 / 60) stateLoadingW).state.lampLight = none := by
  obtain ⟨hmode0, hkeys0, hpos0, hmesh0, hlight0⟩ := stateAfterLoad_fields
  have hmesh : stateLoadingW.lampMesh = none := by
    simp [stateLoadingW, keydown, hmesh0]
  have hlight : stateLoadingW.lampLight = none := by
    simp [stateLoadingW, keydown, hlight0]
  have hmode : stateLoadingW.mode = Mode.TPS := by
    simp [stateLoadingW, keydown, hmode0]
  have hkeys : stateLoadingW.keys = keysW := by
    simp [stateLoadingW, keydown, hkeys0, keysW]
  have hpos : stateLoadingW.playerPosition = ⟨0, 0, 5⟩ := by
    simp [stateLoadingW, keydown, hpos0]
  have hm : moveVector envMinusZ.sqrt envMinusZ.look stateLoadingW.mode stateLoadingW.keys
      = ⟨0, 0, -1⟩ := by
    rw [hmode, hkeys]
    exact moveVector_minusZ_W
  have hlen : Vec3.lengthSq (⟨0, 0, -1⟩ : Vec3 ℚ) > 0 := by
    norm_num [Vec3.lengthSq]
  refine ⟨hmesh, hlight, hmode, hkeys, hpos, ?_, ?_, ?_, ?_⟩
  · rw [animate_threw, hm]
    exact decide_eq_true hlen
  · rw [animate_playerPosition, hm, if_pos hlen, hpos]
    norm_num [Vec3.normalize, Vec3.length, Vec3.lengthSq, Vec3.multiplyScalar, Vec3.add,
      envMinusZ, facing, rat_sqrt_one, walkSpeed]
  · rw [animate_lampMesh, hmesh]; rfl
  · rw [animate_lampLight, hlight]; rfl

theorem toggle_toggle (n : Nat) (h : n = 0 ∨ n = 1) : toggle (toggle n) = n := by
  rcases h with h | h <;> subst h <;> rfl

/-- C9: with `lampState` in {0,1}, two L key-downs, two `__TOGGLE_LAMP` calls,
or one of each, bring `lampState` and the target back; no key-down and no debug
toggle changes `lampAnim`; and one tick after a single toggle from off with
blend 0 the blend is 0.15, not 1. -/
theorem lamp_toggle_twice (s : State K) (h : s.lampState = 0 ∨ s.lampState = 1) :
    (keydown KeyCode.KeyL (keydown KeyCode.KeyL s)).lampState = s.lampState ∧
    (TOGGLE_LAMP (TOGGLE_LAMP s)).lampState = s.lampState ∧
    (TOGGLE_LAMP (keydown KeyCode.KeyL s)).lampState = s.lampState ∧
    (keydown KeyCode.KeyL (TOGGLE_LAMP s)).lampState = s.lampState ∧
    (lampTarget (keydown KeyCode.KeyL (keydown KeyCode.KeyL s)).lampState : K)
      = lampTarget s.lampState ∧
    (∀ code : KeyCode, (keydown code s).lampAnim = s.lampAnim) ∧
    (TOGGLE_LAMP s).lampAnim = s.lampAnim ∧
    (keydown KeyCode.KeyL (keydown KeyCode.KeyL s)).lampAnim = s.lampAnim ∧
    (∀ (env : Env K) (dt : K), s.lampState = 0 → s.lampAnim = 0 →
      (animate env dt (keydown KeyCode.KeyL s)).1.lampAnim = 15 / 100 ∧
      (animate env dt (TOGGLE_LAMP s)).1.lampAnim = 15 / 100 ∧
      (animate env dt (keydown KeyCode.KeyL s)).1.lampAnim ≠ 1) := by
  have ht := toggle_toggle s.lampState h
  refine ⟨?_, ht, ?_, ?_, ?_, fun code => keydown_lampAnim code s, rfl, ?_, ?_⟩
  · rw [keydown_KeyL_lampState, keydown_KeyL_lampState, ht]
  · change toggle (keydown KeyCode.KeyL s).lampState = _
    rw [keydown_KeyL_lampState, ht]
  · rw [keydown_KeyL_lampState]
    exact ht
  · rw [keydown_KeyL_lampState, keydown_KeyL_lampState, ht]
  · rw [keydown_lampAnim, keydown_lampAnim]
  · intro env dt h0 ha
    have hk : (animate env dt (keydown KeyCode.KeyL s)).1.lampAnim = 15 / 100 := by
      rw [animate_lampAnim, keydown_lampAnim, keydown_KeyL_lampState, h0, ha]
      norm_num [toggle, lampStep, lerp, lampTarget]
    refine ⟨hk, ?_, ?_⟩
    · rw [animate_lampAnim]
      change lampStep (toggle s.lampState) s.lampAnim = _
      rw [h0, ha]
      norm_num [toggle, lampStep, lerp, lampTarget]
    · rw [hk]
      norm_num

/-- Witness of C9: from the initial state (lamp off, blend 0), L pressed twice
gives `lampState = 0` again, and one tick after a single press the blend is
0.15. -/
theorem lamp_toggle_twice_witness :
    (keydown KeyCode.KeyL (keydown KeyCode.KeyL (initialState : State ℚ))).lampState = 0 ∧
    (keydown KeyCode.KeyL (initialState : State ℚ)).lampState = 1 ∧
    (animate envMinusZ (1 / 60) (keydown KeyCode.KeyL initialState)).1.lampAnim = 15 / 100 :=
  ⟨(lamp_toggle_twice (initialState : State ℚ) (Or.inl rfl)).1,
    rfl,
    ((lamp_toggle_twice (initialState : State ℚ) (Or.inl rfl)).2.2.2.2.2.2.2.2
      envMinusZ (1 / 60) rfl rfl).1⟩

/-- The walk action variable after a tick with non-zero `move`: only
`mixer.update` has touched it. -/
theorem animate_walkAction_moving (env : Env K) (dt : K) (s : State K)
    (hmove : moveVector env.sqrt env.look s.mode s.keys ≠ Vec3.zero) :
    (animate env dt s).state.walkAction = mixerStep env dt s.mixerTime s.walkAction := by
  have h := (Vec3.lengthSq_pos_iff _).mpr hmove
  unfold animate
  cases hm : s.mode <;> rw [hm] at h <;> simp only [moveVector] at h ⊢ <;> rw [if_pos h]

/-- The animation calls the code does issue, in either mode: on a tick with
zero `move` and both actions present, `walk.fadeOut(0.2);
idle.reset().fadeIn(0.2).play()` exactly when idle is not running after
`mixer.update`, and nothing otherwise; with either action absent, nothing. -/
theorem idle_policy (env : Env K) (dt : K) (s : State K) :
    (∀ idle walk : Action,
      mixerStep env dt s.mixerTime s.idleAction = some idle →
      mixerStep env dt s.mixerTime s.walkAction = some walk →
      moveVector env.sqrt env.look s.mode s.keys = Vec3.zero →
        (idle.isRunning = false →
          (animate env dt s).cmds
            = [AnimCmd.fadeOut Clip.walk (2 / 10), AnimCmd.reset Clip.idle,
                AnimCmd.fadeIn Clip.idle (2 / 10), AnimCmd.play Clip.idle]) ∧
        (idle.isRunning = true → (animate env dt s).cmds = []) ∧
        (animate env dt s).threw = false) ∧
    (s.idleAction = none ∨ s.walkAction = none → (animate env dt s).cmds = []) := by
  constructor
  · intro idle walk hi hw hm
    rw [animate_cmds, animate_threw, hm, if_neg lengthSq_zero_not_pos, hi, hw]
    refine ⟨?_, ?_, decide_eq_false lengthSq_zero_not_pos⟩ <;>
      intro hr <;> simp [idleCmds, crossFade, hr]
  · intro h
    rw [animate_cmds]
    have hi : (idleCmds (mixerStep env dt s.mixerTime s.idleAction)
        (mixerStep env dt s.mixerTime s.walkAction) : List (AnimCmd K)) = [] := by
      rcases h with h | h <;> rw [h] <;> unfold mixerStep idleCmds <;>
        cases s.mixerTime <;> cases s.walkAction <;> cases s.idleAction <;> rfl
    rw [hi, ite_self]

/-- C10, where the code fails: the character loaded with idle running and walk
not running, third-person mode, facing `-Z`, W pressed. The movement vector is
`(0, 0, -1)`, so the claim asks for the cross-fade to walk; the tick throws at
its yaw line before the cross-fade, issues no animation call, and leaves walk
not running. -/
theorem walk_crossfade_not_issued :
    stateWalkStart.idleAction = some ⟨0, true⟩ ∧
    stateWalkStart.walkAction = some ⟨1, false⟩ ∧
    moveVector envMinusZ.sqrt envMinusZ.look stateWalkStart.mode stateWalkStart.keys
      = ⟨0, 0, -1⟩ ∧
    (animate envMinusZ (1 / 60) stateWalkStart).threw = true ∧
    (animate envMinusZ (1 / 60) stateWalkStart).cmds = [] ∧
    (animate envMinusZ (1 / 60) stateWalkStart).cmds
      ≠ [AnimCmd.fadeOut Clip.idle (2 / 10), AnimCmd.reset Clip.walk,
          AnimCmd.fadeIn Clip.walk (2 / 10), AnimCmd.play Clip.walk] ∧
    (animate envMinusZ (1 / 60) stateWalkStart).state.walkAction = some ⟨1, false⟩ := by
  obtain ⟨hmode0, hkeys0, _, _, _⟩ := stateAfterLoad_fields
  have hidle : stateWalkStart.idleAction = some ⟨0, true⟩ := by
    simp [stateWalkStart, keydown, characterLoaded]
  have hwalk : stateWalkStart.walkAction = some ⟨1, false⟩ := by
    simp [stateWalkStart, keydown, characterLoaded, walkClip]
  have hmode : stateWalkStart.mode = Mode.TPS := by
    simp [stateWalkStart, keydown, characterLoaded, hmode0]
  have hkeys : stateWalkStart.keys = keysW := by
    simp [stateWalkStart, keydown, characterLoaded, hkeys0, keysW]
  have hm : moveVector envMinusZ.sqrt envMinusZ.look stateWalkStart.mode stateWalkStart.keys
      = ⟨0, 0, -1⟩ := by
    rw [hmode, hkeys]
    exact moveVector_minusZ_W
  have hne : moveVector envMinusZ.sqrt envMinusZ.look stateWalkStart.mode stateWalkStart.keys
      ≠ Vec3.zero := by
    rw [hm]
    intro h
    have hz := congrArg Vec3.z h
    norm_num [Vec3.zero] at hz
  have ht := moving_tick_throws envMinusZ (1 / 60) stateWalkStart hne
  refine ⟨hidle, hwalk, hm, ht.1, ht.2, ?_, ?_⟩
  · rw [ht.2]
    exact List.noConfusion
  · rw [animate_walkAction_moving envMinusZ (1 / 60) stateWalkStart hne, hwalk]
    have hmix : stateWalkStart.mixerTime = some 0 := by
      simp [stateWalkStart, keydown, characterLoaded]
    rw [hmix]
    rfl

end Policy

/-! ## Agreement of the two movement policies -/

section Agreement

variable {K : Type} [LinearOrderedField K]

theorem crossVectors_up_swap (f : Vec3 K) :
    Vec3.crossVectors up f = Vec3.multiplyScalar (Vec3.crossVectors f up) (-1) := by
  ext <;> simp [Vec3.crossVectors, Vec3.multiplyScalar, up]

theorem Vec3.lengthSq_neg (v : Vec3 K) :
    Vec3.lengthSq (Vec3.multiplyScalar v (-1)) = Vec3.lengthSq v := by
  rw [Vec3.lengthSq_multiplyScalar]
  ring

/-- Normalising the opposite vector gives the opposite of the normalised
vector, whatever the square root. -/
theorem Vec3.normalize_neg (sqrt : K → K) (v : Vec3 K) :
    Vec3.normalize sqrt (Vec3.multiplyScalar v (-1))
      = Vec3.multiplyScalar (Vec3.normalize sqrt v) (-1) := by
  unfold Vec3.normalize Vec3.length
  rw [Vec3.lengthSq_neg]
  ext <;> simp only [Vec3.multiplyScalar] <;> ring

theorem tpsRight_eq_neg_fpsRight (sqrt : K → K) (f : Vec3 K) :
    tpsRight sqrt f = Vec3.multiplyScalar (fpsRight sqrt f) (-1) := by
  unfold tpsRight fpsRight
  rw [crossVectors_up_swap, Vec3.normalize_neg]

theorem tpsMove_eq_fpsMove (sqrt : K → K) (look : Vec3 K) (keys : Keys) :
    tpsMove sqrt look keys = fpsMove sqrt look keys := by
  have hf : cameraDirection sqrt look = fpsForwardVector sqrt look := rfl
  simp only [tpsMove, fpsMove, hf, tpsRight_eq_neg_fpsRight]
  cases keys.w <;> cases keys.s <;> cases keys.a <;> cases keys.d <;>
    ext <;> simp [Vec3.add, Vec3.sub, Vec3.zero, Vec3.multiplyScalar] <;> ring

/-- C11: for every key set and every forward direction, in particular every
unit horizontal `f` (which both branches then use as forward), the third-person
`right = up × f` is the opposite of the first-person `right = f × up`, the
third-person accumulation (A adds right, D subtracts right) gives the same
`move` as the first-person one (A subtracts right, D adds right), and with the
same look direction, keys and `dt` a tick in either mode takes the player to the
same position. -/
theorem tps_fps_same_displacement (env : Env K) (dt : K) (s : State K) (keys : Keys) :
    (ExactSqrt env.sqrt → env.look.y = 0 → Vec3.lengthSq env.look = 1 →
      cameraDirection env.sqrt env.look = env.look ∧
      fpsForwardVector env.sqrt env.look = env.look) ∧
    tpsRight env.sqrt (cameraDirection env.sqrt env.look)
      = Vec3.multiplyScalar (fpsRight env.sqrt (fpsForwardVector env.sqrt env.look)) (-1) ∧
    tpsMove env.sqrt env.look keys = fpsMove env.sqrt env.look keys ∧
    (animate env dt (withKeys keys (setMode Mode.TPS s))).1.playerPosition
      = (animate env dt (withKeys keys (setMode Mode.FPS s))).1.playerPosition ∧
    Vec3.sub (animate env dt (withKeys keys (setMode Mode.TPS s))).1.playerPosition
        s.playerPosition
      = Vec3.sub (animate env dt (withKeys keys (setMode Mode.FPS s))).1.playerPosition
          s.playerPosition := by
  have hpos : (animate env dt (withKeys keys (setMode Mode.TPS s))).1.playerPosition
      = (animate env dt (withKeys keys (setMode Mode.FPS s))).1.playerPosition := by
    rw [animate_playerPosition, animate_playerPosition]
    change (if Vec3.lengthSq (tpsMove env.sqrt env.look keys) > 0 then
        Vec3.add s.playerPosition
          (Vec3.multiplyScalar (Vec3.normalize env.sqrt (tpsMove env.sqrt env.look keys))
            (walkSpeed * dt))
      else s.playerPosition)
      = (if Vec3.lengthSq (fpsMove env.sqrt env.look keys) > 0 then
        Vec3.add s.playerPosition
          (Vec3.multiplyScalar (Vec3.normalize env.sqrt (fpsMove env.sqrt env.look keys))
            (walkSpeed * dt))
      else s.playerPosition)
    rw [tpsMove_eq_fpsMove]
  refine ⟨?_, tpsRight_eq_neg_fpsRight _ _, tpsMove_eq_fpsMove _ _ _, hpos, ?_⟩
  · intro hs hy hlen
    have hflat : Vec3.flatten env.look = env.look := by
      ext <;> simp [Vec3.flatten, hy]
    have h : Vec3.normalize env.sqrt (Vec3.flatten env.look) = env.look := by
      rw [hflat]
      exact Vec3.normalize_unit hs _ hlen
    exact ⟨h, h⟩
  · rw [hpos]

/-- Witness of C11: facing `-Z` (a unit horizontal forward), W and D held,
`dt = 1/10`, over the reals: both branches accumulate `(1, 0, -1)` and both
modes move the player from the same start to the same position. -/
theorem tps_fps_same_displacement_witness :
    (⟨0, 0, -1⟩ : Vec3 ℝ).y = 0 ∧ Vec3.lengthSq (⟨0, 0, -1⟩ : Vec3 ℝ) = 1 ∧
    cameraDirection Real.sqrt (⟨0, 0, -1⟩ : Vec3 ℝ) = ⟨0, 0, -1⟩ ∧
    fpsMove Real.sqrt (⟨0, 0, -1⟩ : Vec3 ℝ) keysWD = ⟨1, 0, -1⟩ ∧
    tpsMove Real.sqrt (⟨0, 0, -1⟩ : Vec3 ℝ) keysWD = ⟨1, 0, -1⟩ ∧
    (animate (facing Real.sqrt ⟨0, 0, -1⟩) (1 / 10)
      (withKeys keysWD (setMode Mode.TPS initialState))).1.playerPosition
      = (animate (facing Real.sqrt ⟨0, 0, -1⟩) (1 / 10)
          (withKeys keysWD (setMode Mode.FPS initialState))).1.playerPosition := by
  have hy : (⟨0, 0, -1⟩ : Vec3 ℝ).y = 0 := rfl
  have hlen : Vec3.lengthSq (⟨0, 0, -1⟩ : Vec3 ℝ) = 1 := by
    norm_num [Vec3.lengthSq]
  have h := tps_fps_same_displacement (facing Real.sqrt ⟨0, 0, -1⟩) (1 / 10)
    (initialState : State ℝ) keysWD
  have hf : fpsMove Real.sqrt (⟨0, 0, -1⟩ : Vec3 ℝ) keysWD = ⟨1, 0, -1⟩ := by
    norm_num [fpsMove, keysWD, fpsForwardVector, fpsRight, Vec3.normalize, Vec3.length,
      Vec3.lengthSq, Vec3.flatten, Vec3.crossVectors, Vec3.multiplyScalar, Vec3.add, Vec3.sub,
      Vec3.zero, up]
  refine ⟨hy, hlen, (h.1 ExactSqrt.real hy hlen).1, hf, ?_, h.2.2.2.1⟩
  have ht : tpsMove Real.sqrt (⟨0, 0, -1⟩ : Vec3 ℝ) keysWD
      = fpsMove Real.sqrt (⟨0, 0, -1⟩ : Vec3 ℝ) keysWD := h.2.2.1
  rw [ht, hf]

end Agreement

end Viewer
